import Mathlib

/-
Verification of the rouse on-call alerting engine (crates rouse-core,
rouse-ports, rouse-app) against its natural-language specification.

Shallow embedding conventions:
* Rust chrono DateTime<Utc> values are modelled as Int (Unix seconds);
  chrono Duration values are modelled as Int (whole seconds).
* Rust u32/u64 counters are modelled as Nat, i64 quantities as Int.
  Rust i64 division (which truncates toward zero) is Int.tdiv;
  i64::rem_euclid is Int.emod.
* UUID-typed identifiers (AlertId, UserId, ...) wrap an opaque String.
  The effectful generators (Uuid::new_v4) are modelled by passing the
  freshly generated id as an explicit argument to the constructor.
* BTreeMap<String, String> label maps are modelled by their iteration
  order, i.e. the key-sorted association list: two BTreeMaps are equal
  exactly when their sorted pair lists are equal.
* Fallible Rust functions returning Result are modelled with Except;
  &mut self methods return the updated value alongside their payload.
* Rust panics (division by zero, out-of-bounds indexing) are modelled
  by an Option-valued guard branch returning none.
-/

namespace Rouse

/-- Typed UUID wrapper, from rouse-core/src/ids.rs (define_id!). -/
structure AlertId where
  val : String
deriving DecidableEq, Repr

/-- Typed UUID wrapper, from rouse-core/src/ids.rs (define_id!). -/
structure UserId where
  val : String
deriving DecidableEq, Repr

/-- Typed UUID wrapper, from rouse-core/src/ids.rs (define_id!). -/
structure ScheduleId where
  val : String
deriving DecidableEq, Repr

/-- Typed UUID wrapper, from rouse-core/src/ids.rs (define_id!). -/
structure PolicyId where
  val : String
deriving DecidableEq, Repr

/-- Typed UUID wrapper, from rouse-core/src/ids.rs (define_id!). -/
structure TeamId where
  val : String
deriving DecidableEq, Repr

/-- Typed UUID wrapper, from rouse-core/src/ids.rs (define_id!). -/
structure GroupId where
  val : String
deriving DecidableEq, Repr

/-- Typed UUID wrapper, from rouse-core/src/ids.rs (define_id!). -/
structure OverrideId where
  val : String
deriving DecidableEq, Repr

/-- Severity, from rouse-core/src/alert/severity.rs. -/
inductive Severity where
  | Critical
  | Warning
  | Info
deriving DecidableEq, Repr

/-- Status, from rouse-core/src/alert/status.rs. -/
inductive Status where
  | Firing
  | Acknowledged
  | Resolved
deriving DecidableEq, Repr

/-- Source, from rouse-core/src/alert/source.rs: a newtype over String. -/
structure Source where
  val : String
deriving DecidableEq, Repr

/-- Channel, from rouse-core/src/channel.rs. -/
inductive Channel where
  | Slack
  | Discord
  | Telegram
  | WhatsApp
  | Sms
  | Phone
  | Email
  | Webhook
deriving DecidableEq, Repr

/-- DomainError, from rouse-core/src/error.rs. -/
inductive DomainError where
  | AlertAlreadyResolved
  | ScheduleRequiresParticipant
  | InvalidPhoneFormat
  | InvalidOverridePeriod
  | InvalidId (name : String)
  | PolicyRequiresStep
  | StepRequiresTarget
  | StepRequiresChannel
deriving DecidableEq, Repr

/-- PortError, from rouse-ports/src/error.rs. -/
inductive PortError where
  | NotFound
  | Persistence (msg : String)
  | Connection (msg : String)
deriving DecidableEq, Repr

/-- AppError, from rouse-app/src/error.rs (the Parse and Routing variants
carry the same shape; ParseError is collapsed to its message, which no
claim inspects). -/
inductive AppError where
  | Domain (e : DomainError)
  | Port (e : PortError)
  | Parse (msg : String)
  | Routing (msg : String)
deriving DecidableEq, Repr

/-- A BTreeMap<String, String> label map, represented by its key-sorted
association list (the iteration order the Rust code observes). -/
abbrev Labels : Type := List (String × String)

/-- Rust str::to_lowercase, modelled characterwise with Char.toLower
(the inputs the service compares are ASCII status and severity tokens). -/
def lowercase (s : String) : String :=
  String.mk (s.data.map Char.toLower)

/-- UTF-8 encoding of one unicode scalar value, as Rust str::as_bytes
exposes it; each byte is a Nat below 256. -/
def utf8Bytes (c : Nat) : List Nat :=
  if c < 128 then
    [c]
  else if c < 2048 then
    [192 ||| (c >>> 6), 128 ||| (c &&& 63)]
  else if c < 65536 then
    [224 ||| (c >>> 12), 128 ||| ((c >>> 6) &&& 63), 128 ||| (c &&& 63)]
  else
    [240 ||| (c >>> 18), 128 ||| ((c >>> 12) &&& 63),
     128 ||| ((c >>> 6) &&& 63), 128 ||| (c &&& 63)]

/-- The UTF-8 byte sequence of a string. -/
def strBytes (s : String) : List Nat :=
  s.data.flatMap (fun c => utf8Bytes c.toNat)

/-- Reduction modulo 2^64, the wrap-around of u64 arithmetic. -/
def wrap64 (n : Nat) : Nat :=
  n % 18446744073709551616

/-- u64 wrapping addition. -/
def wadd (a b : Nat) : Nat :=
  wrap64 (a + b)

/-- u64 rotate-left by b bits (inputs below 2^64). -/
def rotl64 (x b : Nat) : Nat :=
  wrap64 ((x <<< b) ||| (x >>> (64 - b)))

/-- SipHash internal state: the four u64 words v0, v1, v2, v3. -/
structure SipState where
  v0 : Nat
  v1 : Nat
  v2 : Nat
  v3 : Nat

/-- One SipHash round, from the std SipHasher13 used by DefaultHasher. -/
def sipRound (s : SipState) : SipState :=
  let v0 := wadd s.v0 s.v1
  let v1 := rotl64 s.v1 13
  let v1 := v1 ^^^ v0
  let v0 := rotl64 v0 32
  let v2 := wadd s.v2 s.v3
  let v3 := rotl64 s.v3 16
  let v3 := v3 ^^^ v2
  let v0 := wadd v0 v3
  let v3 := rotl64 v3 21
  let v3 := v3 ^^^ v0
  let v2 := wadd v2 v1
  let v1 := rotl64 v1 17
  let v1 := v1 ^^^ v2
  let v2 := rotl64 v2 32
  ⟨v0, v1, v2, v3⟩

/-- Absorb one 8-byte message word: SipHash-1-3 uses a single
compression round per word. -/
def sipWord (s : SipState) (m : Nat) : SipState :=
  let s := { s with v3 := s.v3 ^^^ m }
  let s := sipRound s
  { s with v0 := s.v0 ^^^ m }

/-- Little-endian assembly of up to eight bytes into a u64. -/
def le64 (bs : List Nat) : Nat :=
  bs.foldr (fun b acc => b + 256 * acc) 0

/-- SipHash-1-3 main loop: absorb full 8-byte blocks, then the final
block (remaining bytes plus the message length in the top byte), then
three finalization rounds; the digest is masked to u64 range. -/
def sipMain (s : SipState) (len : Nat) : List Nat → Nat
  | b0 :: b1 :: b2 :: b3 :: b4 :: b5 :: b6 :: b7 :: rest =>
      sipMain (sipWord s (le64 [b0, b1, b2, b3, b4, b5, b6, b7])) len rest
  | tail =>
      let b := ((len % 256) <<< 56) ||| le64 tail
      let s := sipWord s b
      let s := { s with v2 := s.v2 ^^^ 255 }
      let s := sipRound (sipRound (sipRound s))
      wrap64 (s.v0 ^^^ s.v1 ^^^ s.v2 ^^^ s.v3)

/-- DefaultHasher::new(): SipHasher13 keyed with k0 = 0, k1 = 0; the
initial state is the SipHash constants XORed with the zero keys. -/
def sipInit : SipState :=
  ⟨0x736f6d6570736575, 0x646f72616e646f6d, 0x6c7967656e657261, 0x7465646279746573⟩

/-- The byte stream DefaultHasher receives in Fingerprint::from_labels:
for each (k, v) pair in sorted key order, str::hash feeds the UTF-8
bytes of k followed by the 0xff terminator byte, then those of v. -/
def labelStream (labels : Labels) : List Nat :=
  labels.flatMap (fun kv => strBytes kv.1 ++ [255] ++ strBytes kv.2 ++ [255])

/-- The u64 digest DefaultHasher::finish returns for a label map. -/
def labelHash (labels : Labels) : Nat :=
  let stream := labelStream labels
  sipMain sipInit stream.length stream

/-- Hex digit characters used by format!("{:016x}", _); Nat.digitChar
maps 0-9 to '0'-'9' and 10-15 to lowercase 'a'-'f'. -/
def hex16 (n : Nat) : String :=
  String.mk ((List.range 16).map (fun i => Nat.digitChar (n / 16 ^ (15 - i) % 16)))

/-- Fingerprint, from rouse-core/src/alert/fingerprint.rs: a newtype
over the formatted digest string. -/
structure Fingerprint where
  val : String
deriving DecidableEq, Repr

/-- Fingerprint::from_labels: hash the (k, v) pairs in sorted key order
with DefaultHasher and render the u64 digest as 16 zero-padded lowercase
hex characters. -/
def Fingerprint.from_labels (labels : Labels) : Fingerprint :=
  ⟨hex16 (labelHash labels)⟩

/-- AlertReceived event payload, from rouse-core/src/events.rs. -/
structure AlertReceived where
  alert_id : AlertId
  source : String
  severity : Severity
  occurred_at : Int
deriving DecidableEq, Repr

/-- AlertDeduplicated event payload, from rouse-core/src/events.rs. -/
structure AlertDeduplicated where
  alert_id : AlertId
  fingerprint : String
  occurred_at : Int
deriving DecidableEq, Repr

/-- AlertAcknowledged event payload, from rouse-core/src/events.rs. -/
structure AlertAcknowledged where
  alert_id : AlertId
  user_id : UserId
  occurred_at : Int
deriving DecidableEq, Repr

/-- AlertEscalated event payload, from rouse-core/src/events.rs. -/
structure AlertEscalated where
  alert_id : AlertId
  step : Nat
  targets : List String
  occurred_at : Int
deriving DecidableEq, Repr

/-- AlertResolved event payload, from rouse-core/src/events.rs. -/
structure AlertResolved where
  alert_id : AlertId
  resolved_by : String
  occurred_at : Int
deriving DecidableEq, Repr

/-- NotificationSent event payload, from rouse-core/src/events.rs. -/
structure NotificationSent where
  alert_id : AlertId
  channel : Channel
  target : String
  external_id : Option String
  occurred_at : Int
deriving DecidableEq, Repr

/-- NotificationFailed event payload, from rouse-core/src/events.rs. -/
structure NotificationFailed where
  alert_id : AlertId
  channel : Channel
  target : String
  error : String
  occurred_at : Int
deriving DecidableEq, Repr

/-- OnCallChanged event payload, from rouse-core/src/events.rs. -/
structure OnCallChanged where
  schedule_id : ScheduleId
  new_user : UserId
  previous_user : Option UserId
  occurred_at : Int
deriving DecidableEq, Repr

/-- EscalationExhausted event payload, from rouse-core/src/events.rs. -/
structure EscalationExhausted where
  alert_id : AlertId
  policy_id : PolicyId
  occurred_at : Int
deriving DecidableEq, Repr

/-- DomainEvent, from rouse-core/src/events.rs: closed tagged union. -/
inductive DomainEvent where
  | AlertReceived (e : AlertReceived)
  | AlertDeduplicated (e : AlertDeduplicated)
  | AlertAcknowledged (e : AlertAcknowledged)
  | AlertEscalated (e : AlertEscalated)
  | AlertResolved (e : AlertResolved)
  | NotificationSent (e : NotificationSent)
  | NotificationFailed (e : NotificationFailed)
  | OnCallChanged (e : OnCallChanged)
  | EscalationExhausted (e : EscalationExhausted)
deriving DecidableEq, Repr

/-- Alert aggregate, from rouse-core/src/alert/mod.rs. -/
structure Alert where
  id : AlertId
  external_id : String
  source : Source
  severity : Severity
  status : Status
  fingerprint : Fingerprint
  labels : Labels
  summary : String
  created_at : Int
  acknowledged_at : Option Int
  acknowledged_by : Option UserId
  resolved_at : Option Int
deriving DecidableEq, Repr

/-- Alert::new, from rouse-core/src/alert/mod.rs; the random AlertId is
passed in as the freshly generated id. -/
def Alert.new (id : AlertId) (external_id : String) (source : Source)
    (severity : Severity) (labels : Labels) (summary : String)
    (now : Int) : Alert × List DomainEvent :=
  let fingerprint := Fingerprint.from_labels labels
  let alert : Alert :=
    { id := id
      external_id := external_id
      source := source
      severity := severity
      status := Status.Firing
      fingerprint := fingerprint
      labels := labels
      summary := summary
      created_at := now
      acknowledged_at := none
      acknowledged_by := none
      resolved_at := none }
  let events := [DomainEvent.AlertReceived
    { alert_id := id, source := source.val, severity := severity, occurred_at := now }]
  (alert, events)

/-- Alert::acknowledge, from rouse-core/src/alert/mod.rs; the mutated
aggregate is returned alongside the emitted events. -/
def Alert.acknowledge (a : Alert) (user_id : UserId) (now : Int) :
    Except DomainError (Alert × List DomainEvent) :=
  match a.status with
  | Status.Resolved => Except.error DomainError.AlertAlreadyResolved
  | Status.Acknowledged => Except.ok (a, [])
  | Status.Firing =>
      let a := { a with
        status := Status.Acknowledged
        acknowledged_at := some now
        acknowledged_by := some user_id }
      Except.ok (a, [DomainEvent.AlertAcknowledged
        { alert_id := a.id, user_id := user_id, occurred_at := now }])

/-- Alert::resolve, from rouse-core/src/alert/mod.rs. -/
def Alert.resolve (a : Alert) (resolved_by : String) (now : Int) :
    Except DomainError (Alert × List DomainEvent) :=
  match a.status with
  | Status.Resolved => Except.ok (a, [])
  | Status.Firing =>
      let a := { a with status := Status.Resolved, resolved_at := some now }
      Except.ok (a, [DomainEvent.AlertResolved
        { alert_id := a.id, resolved_by := resolved_by, occurred_at := now }])
  | Status.Acknowledged =>
      let a := { a with status := Status.Resolved, resolved_at := some now }
      Except.ok (a, [DomainEvent.AlertResolved
        { alert_id := a.id, resolved_by := resolved_by, occurred_at := now }])

/-- One call against the Alert aggregate: the two mutating operations
AlertService drives. -/
inductive AlertOp where
  | acknowledge (user_id : UserId) (now : Int)
  | resolve (resolved_by : String) (now : Int)
deriving DecidableEq, Repr

/-- Apply one operation; on a domain error the &mut aggregate is left
untouched, so the pre-state is kept. -/
def applyOp (a : Alert) : AlertOp → Alert
  | AlertOp.acknowledge u now =>
      match a.acknowledge u now with
      | Except.ok (a2, _) => a2
      | Except.error _ => a
  | AlertOp.resolve rb now =>
      match a.resolve rb now with
      | Except.ok (a2, _) => a2
      | Except.error _ => a

/-- Apply a sequence of operations left to right. -/
def applyOps (a : Alert) (ops : List AlertOp) : Alert :=
  ops.foldl applyOp a

/-- The sequence of status values observed while running ops: the
starting status followed by the status after each call. -/
def statusTrace (a : Alert) : List AlertOp → List Status
  | [] => [a.status]
  | op :: ops => a.status :: statusTrace (applyOp a op) ops

/-- Collapse consecutive duplicate statuses: [F, F, A, A, R] becomes
[F, A, R]. -/
def collapse : List Status → List Status
  | [] => []
  | x :: xs =>
      match collapse xs with
      | [] => [x]
      | y :: ys => if x = y then y :: ys else x :: y :: ys

/-- NoiseScore, from rouse-core/src/alert/noise.rs. -/
structure NoiseScore where
  fingerprint : String
  total_fires : Nat
  dismissed_count : Nat
  acted_on_count : Nat
  avg_time_to_ack_secs : Int
deriving DecidableEq, Repr

/-- NoiseScore::new. -/
def NoiseScore.new (fingerprint : String) : NoiseScore :=
  { fingerprint := fingerprint
    total_fires := 0
    dismissed_count := 0
    acted_on_count := 0
    avg_time_to_ack_secs := 0 }

/-- NoiseScore::record_fire. -/
def NoiseScore.record_fire (s : NoiseScore) : NoiseScore :=
  { s with total_fires := s.total_fires + 1 }

/-- NoiseScore::record_dismiss. -/
def NoiseScore.record_dismiss (s : NoiseScore) : NoiseScore :=
  { s with dismissed_count := s.dismissed_count + 1 }

/-- NoiseScore::record_action. -/
def NoiseScore.record_action (s : NoiseScore) : NoiseScore :=
  { s with acted_on_count := s.acted_on_count + 1 }

/-- NoiseScore::update_avg_ack_time: ack_duration is the chrono Duration
in whole seconds; the running average uses i64 arithmetic, whose
division truncates toward zero (Int.tdiv). -/
def NoiseScore.update_avg_ack_time (s : NoiseScore) (ack_duration : Int) : NoiseScore :=
  let count := s.dismissed_count + s.acted_on_count
  if count = 0 then
    { s with avg_time_to_ack_secs := ack_duration }
  else
    let prev_total := s.avg_time_to_ack_secs * ((count : Int) - 1)
    { s with avg_time_to_ack_secs := Int.tdiv (prev_total + ack_duration) (count : Int) }

/-- One call against NoiseScore (the counter mutators of noise.rs). -/
inductive NoiseOp where
  | fire
  | dismiss
  | action
deriving DecidableEq, Repr

/-- Apply one counter call. -/
def NoiseScore.applyNoiseOp (s : NoiseScore) : NoiseOp → NoiseScore
  | NoiseOp.fire => s.record_fire
  | NoiseOp.dismiss => s.record_dismiss
  | NoiseOp.action => s.record_action

/-- Run a sequence of counter calls left to right. -/
def NoiseScore.runOps (s : NoiseScore) (ops : List NoiseOp) : NoiseScore :=
  ops.foldl NoiseScore.applyNoiseOp s

/-- Number of record_fire calls in a sequence. -/
def numFire : List NoiseOp → Nat
  | [] => 0
  | NoiseOp.fire :: ops => numFire ops + 1
  | _ :: ops => numFire ops

/-- Number of record_dismiss calls in a sequence. -/
def numDismiss : List NoiseOp → Nat
  | [] => 0
  | NoiseOp.dismiss :: ops => numDismiss ops + 1
  | _ :: ops => numDismiss ops

/-- Number of record_action calls in a sequence. -/
def numAction : List NoiseOp → Nat
  | [] => 0
  | NoiseOp.action :: ops => numAction ops + 1
  | _ :: ops => numAction ops

/-- One increment-then-update pair as NoiseService::record_response
performs it: the flag picks record_dismiss (true) or record_action
(false), then update_avg_ack_time runs with the given duration. -/
def NoiseScore.runPairs (s : NoiseScore) : List (Bool × Int) → NoiseScore
  | [] => s
  | (dismissed, d) :: rest =>
      let s := if dismissed then s.record_dismiss else s.record_action
      NoiseScore.runPairs (s.update_avg_ack_time d) rest

/-- AlertGroup, from rouse-core/src/alert/group.rs. -/
structure AlertGroup where
  id : GroupId
  root_alert_id : AlertId
  member_alert_ids : List AlertId
  grouping_key : String
  window_secs : Int
  created_at : Int
  last_added_at : Int
deriving DecidableEq, Repr

/-- should_group, from rouse-core/src/alert/grouping.rs: pure
time-window check with a strict comparison. -/
def should_group (existing_group : AlertGroup) (new_alert_created_at : Int)
    (window : Int) : Bool :=
  new_alert_created_at < existing_group.last_added_at + window

/-- OnCallModifier, from rouse-core/src/escalation/target.rs. -/
inductive OnCallModifier where
  | Current
  | Next
deriving DecidableEq, Repr

/-- EscalationTarget, from rouse-core/src/escalation/target.rs. -/
inductive EscalationTarget where
  | OnCall (schedule_id : ScheduleId) (modifier : OnCallModifier)
  | User (user_id : UserId)
  | Team (team_id : TeamId)
deriving DecidableEq, Repr

/-- EscalationStep, from rouse-core/src/escalation/step.rs. -/
structure EscalationStep where
  order : Nat
  wait_seconds : Nat
  targets : List EscalationTarget
  channels : List Channel
deriving DecidableEq, Repr

/-- EscalationPolicy, from rouse-core/src/escalation/mod.rs. -/
structure EscalationPolicy where
  id : PolicyId
  name : String
  steps : List EscalationStep
  repeat_count : Nat
deriving DecidableEq, Repr

/-- EscalationPolicy::new: the only validation is that steps is
non-empty; the random PolicyId is passed in. -/
def EscalationPolicy.new (id : PolicyId) (name : String)
    (steps : List EscalationStep) (repeat_count : Nat) :
    Except DomainError EscalationPolicy :=
  if steps.isEmpty then
    Except.error DomainError.PolicyRequiresStep
  else
    Except.ok { id := id, name := name, steps := steps, repeat_count := repeat_count }

/-- EscalationPolicy::add_step: rejects a step with no targets, then a
step with no channels, else appends it (returning no events). -/
def EscalationPolicy.add_step (p : EscalationPolicy) (step : EscalationStep) :
    Except DomainError (EscalationPolicy × List DomainEvent) :=
  if step.targets.isEmpty then
    Except.error DomainError.StepRequiresTarget
  else if step.channels.isEmpty then
    Except.error DomainError.StepRequiresChannel
  else
    Except.ok ({ p with steps := p.steps ++ [step] }, [])

/-- Weekday, from chrono::Weekday as stored in HandoffTime. -/
inductive Weekday where
  | Mon
  | Tue
  | Wed
  | Thu
  | Fri
  | Sat
  | Sun
deriving DecidableEq, Repr

/-- HandoffTime, from rouse-core/src/schedule/mod.rs. -/
structure HandoffTime where
  day : Weekday
  hour : Nat
  minute : Nat
deriving DecidableEq, Repr

/-- Rotation, from rouse-core/src/schedule/rotation.rs. -/
inductive Rotation where
  | Daily
  | Weekly
  | Custom (secs : Int)
deriving DecidableEq, Repr

/-- Rotation::duration().num_seconds(): Daily is 86400s, Weekly is
604800s, Custom carries its seconds. -/
def Rotation.duration_secs : Rotation → Int
  | Rotation.Daily => 86400
  | Rotation.Weekly => 604800
  | Rotation.Custom secs => secs

/-- ScheduleOverride, from rouse-core/src/schedule/shift_override.rs. -/
structure ScheduleOverride where
  id : OverrideId
  user_id : UserId
  start : Int
  end_ : Int
deriving DecidableEq, Repr

/-- ScheduleOverride::is_active_at: half-open interval containment. -/
def ScheduleOverride.is_active_at (o : ScheduleOverride) (at_ : Int) : Bool :=
  decide (o.start ≤ at_) && decide (at_ < o.end_)

/-- Schedule, from rouse-core/src/schedule/mod.rs. The chrono-tz
timezone field is represented by the one quantity rotation_on_call
derives from it: timezone_epoch, the Unix second of the fixed anchor
Monday 2020-01-06 00:00:00 resolved in that timezone. -/
structure Schedule where
  id : ScheduleId
  name : String
  timezone_epoch : Int
  rotation : Rotation
  participants : List UserId
  handoff : HandoffTime
  overrides : List ScheduleOverride
deriving DecidableEq, Repr

/-- Schedule::new: rejects an empty participant list, stores the rest
verbatim with no overrides; the random ScheduleId is passed in. -/
def Schedule.new (id : ScheduleId) (name : String) (timezone_epoch : Int)
    (rotation : Rotation) (participants : List UserId)
    (handoff : HandoffTime) : Except DomainError Schedule :=
  if participants.isEmpty then
    Except.error DomainError.ScheduleRequiresParticipant
  else
    Except.ok
      { id := id
        name := name
        timezone_epoch := timezone_epoch
        rotation := rotation
        participants := participants
        handoff := handoff
        overrides := [] }

/-- Schedule::rotation_on_call: elapsed seconds since the fixed epoch,
i64-divided (truncating) by the rotation length, Euclidean-remaindered
by the participant count, then indexed. The Rust code panics on a zero
rotation length (division by zero) and on an out-of-range index; both
panics are the none branch here. -/
def Schedule.rotation_on_call (s : Schedule) (at_ : Int) : Option UserId :=
  let rotation_secs := s.rotation.duration_secs
  if rotation_secs = 0 then
    none
  else
    let elapsed := at_ - s.timezone_epoch
    let index := Int.emod (Int.tdiv elapsed rotation_secs) (s.participants.length : Int)
    s.participants[index.toNat]?

/-- Schedule::who_is_on_call: scan overrides in reverse insertion order
and return the first active one; otherwise fall back to the rotation. -/
def Schedule.who_is_on_call (s : Schedule) (at_ : Int) : Option UserId :=
  match s.overrides.reverse.find? (fun o => o.is_active_at at_) with
  | some o => some o.user_id
  | none => s.rotation_on_call at_

/-- QueueStatus, from rouse-ports/src/types.rs. -/
inductive QueueStatus where
  | Pending
  | Sent
  | Failed
  | Dead
deriving DecidableEq, Repr

/-- PendingEscalation queue row, from rouse-ports/src/types.rs. -/
structure PendingEscalation where
  id : String
  alert_id : AlertId
  policy_id : PolicyId
  step_order : Nat
  fires_at : Int
  status : QueueStatus
deriving DecidableEq, Repr

/-- RawAlert, from rouse-ports/src/types.rs: inbound shape before
domain validation. -/
structure RawAlert where
  external_id : String
  source : String
  severity : String
  labels : Labels
  summary : String
  status : String
deriving DecidableEq, Repr

/-- BTreeMap::get on a label map (key-sorted association list). -/
def labelsGet (labels : Labels) (k : String) : Option String :=
  (labels.find? (fun kv => kv.1 == k)).map (fun kv => kv.2)

/-- Route, from rouse-app/src/router.rs. -/
structure Route where
  matchers : Labels
  policy_id : PolicyId
deriving DecidableEq, Repr

/-- AlertRouter, from rouse-app/src/router.rs. -/
structure AlertRouter where
  routes : List Route
deriving DecidableEq, Repr

/-- AlertRouter::match_alert: the first route all of whose matcher
pairs appear in the labels wins. -/
def AlertRouter.match_alert (r : AlertRouter) (labels : Labels) : Option PolicyId :=
  r.routes.findSome? (fun route =>
    let all_match := route.matchers.all (fun kv => labelsGet labels kv.1 == some kv.2)
    if all_match then some route.policy_id else none)

/-- The I/O world AlertService::receive touches, with each port
modelled by its in-memory semantics: AlertRepository::save is an upsert
keyed by alert id, find_by_fingerprint returns the first stored match,
EscalationQueue::enqueue_step and cancel_for_alert append to their
logs, and EventPublisher::publish appends the events in order. -/
structure ServiceState where
  alerts : List Alert
  enqueued : List PendingEscalation
  cancelled : List String
  published : List DomainEvent
deriving DecidableEq, Repr

/-- AlertRepository::find_by_fingerprint (first stored alert whose
fingerprint string matches). -/
def findByFingerprint (alerts : List Alert) (fp : String) : Option Alert :=
  alerts.find? (fun a => a.fingerprint.val == fp)

/-- AlertRepository::save: replace the row with the same id, else
append. -/
def saveAlert (alerts : List Alert) (alert : Alert) : List Alert :=
  if alerts.any (fun a => a.id == alert.id) then
    alerts.map (fun a => if a.id == alert.id then alert else a)
  else
    alerts ++ [alert]

/-- AlertService::receive, from rouse-app/src/alert_service.rs. The
fresh random AlertId that Alert::new would draw is passed in. Faithful
to the source, the routing match in the creation path is computed and
then discarded: the enqueue of the first escalation step is an empty
stub in the code ("Escalation enqueuing will be handled when we have
full policy resolution"). -/
def receive (router : AlertRouter) (st : ServiceState) (raw : RawAlert)
    (now : Int) (fresh_id : AlertId) : Except AppError (AlertId × ServiceState) :=
  let labels := raw.labels
  let fingerprint := Fingerprint.from_labels labels
  if lowercase raw.status = "resolved" then
    match findByFingerprint st.alerts fingerprint.val with
    | none => Except.error (AppError.Port PortError.NotFound)
    | some alert =>
        let alert_id := alert.id
        let resolved_by := "source:" ++ raw.source
        match alert.resolve resolved_by now with
        | Except.error e => Except.error (AppError.Domain e)
        | Except.ok (alert2, events) =>
            if events.isEmpty then
              Except.ok (alert_id, st)
            else
              Except.ok (alert_id,
                { st with
                  cancelled := st.cancelled ++ [alert_id.val]
                  alerts := saveAlert st.alerts alert2
                  published := st.published ++ events })
  else
    match findByFingerprint st.alerts fingerprint.val with
    | some existing =>
        let existing_id := existing.id
        Except.ok (existing_id,
          { st with published := st.published ++
              [DomainEvent.AlertDeduplicated
                { alert_id := existing_id
                  fingerprint := fingerprint.val
                  occurred_at := now }] })
    | none =>
        let severity :=
          if lowercase raw.severity = "critical" then Severity.Critical
          else if lowercase raw.severity = "warning" then Severity.Warning
          else Severity.Info
        let (alert, creation_events) :=
          Alert.new fresh_id raw.external_id ⟨raw.source⟩ severity labels raw.summary now
        let alert_id := alert.id
        let st :=
          { st with
            alerts := saveAlert st.alerts alert
            published := st.published ++ creation_events }
        let _policy_id := router.match_alert labels
        Except.ok (alert_id, st)

deriving instance DecidableEq for Except

/-- A concrete alert sitting in the Resolved state. -/
def alertR : Alert :=
  { id := ⟨"a1"⟩, external_id := "e", source := ⟨"s"⟩, severity := Severity.Info,
    status := Status.Resolved, fingerprint := ⟨"f"⟩, labels := [], summary := "m",
    created_at := 0, acknowledged_at := none, acknowledged_by := none,
    resolved_at := some 0 }

/-- A concrete alert sitting in the Firing state. -/
def alertF : Alert :=
  { id := ⟨"a2"⟩, external_id := "e", source := ⟨"s"⟩, severity := Severity.Info,
    status := Status.Firing, fingerprint := ⟨"f"⟩, labels := [], summary := "m",
    created_at := 0, acknowledged_at := none, acknowledged_by := none,
    resolved_at := none }

lemma applyOp_ack_firing (a : Alert) (u : UserId) (n : Int) (h : a.status = Status.Firing) :
    applyOp a (AlertOp.acknowledge u n) =
      { a with status := Status.Acknowledged, acknowledged_at := some n,
               acknowledged_by := some u } := by
  simp [applyOp, Alert.acknowledge, h]

lemma applyOp_ack_acknowledged (a : Alert) (u : UserId) (n : Int)
    (h : a.status = Status.Acknowledged) :
    applyOp a (AlertOp.acknowledge u n) = a := by
  simp [applyOp, Alert.acknowledge, h]

lemma applyOp_ack_resolved (a : Alert) (u : UserId) (n : Int)
    (h : a.status = Status.Resolved) :
    applyOp a (AlertOp.acknowledge u n) = a := by
  simp [applyOp, Alert.acknowledge, h]

lemma applyOp_resolve_firing (a : Alert) (rb : String) (n : Int)
    (h : a.status = Status.Firing) :
    applyOp a (AlertOp.resolve rb n) =
      { a with status := Status.Resolved, resolved_at := some n } := by
  simp [applyOp, Alert.resolve, h]

lemma applyOp_resolve_acknowledged (a : Alert) (rb : String) (n : Int)
    (h : a.status = Status.Acknowledged) :
    applyOp a (AlertOp.resolve rb n) =
      { a with status := Status.Resolved, resolved_at := some n } := by
  simp [applyOp, Alert.resolve, h]

lemma applyOp_resolve_resolved (a : Alert) (rb : String) (n : Int)
    (h : a.status = Status.Resolved) :
    applyOp a (AlertOp.resolve rb n) = a := by
  simp [applyOp, Alert.resolve, h]

lemma applyOp_resolved_fixed (a : Alert) (op : AlertOp) (h : a.status = Status.Resolved) :
    applyOp a op = a := by
  cases op with
  | acknowledge u n => exact applyOp_ack_resolved a u n h
  | resolve rb n => exact applyOp_resolve_resolved a rb n h

/-- C9: should_group(g, t, w) is true exactly when t is strictly below
g.last_added_at + w, so an alert created exactly at the boundary
g.last_added_at + w does not join the group. -/
theorem should_group_strict_window (g : AlertGroup) (t w : Int) :
    (should_group g t w = true ↔ t < g.last_added_at + w) ∧
    should_group g (g.last_added_at + w) w = false := by
  constructor
  · simp [should_group]
  · simp [should_group]

/-- C9 witness: a concrete group with window 30 groups an alert 10
seconds in and rejects one exactly at the boundary. -/
theorem should_group_strict_window_witness :
    (should_group ⟨⟨"g"⟩, ⟨"a"⟩, [⟨"a"⟩], "am:api", 30, 100, 100⟩ 110 30 = true ↔
      (110 : Int) < 100 + 30) ∧
    should_group ⟨⟨"g"⟩, ⟨"a"⟩, [⟨"a"⟩], "am:api", 30, 100, 100⟩ (100 + 30) 30 = false :=
  should_group_strict_window ⟨⟨"g"⟩, ⟨"a"⟩, [⟨"a"⟩], "am:api", 30, 100, 100⟩ 110 30

/-- A step with no targets and no channels, rejected by add_step but
accepted inside the list given to EscalationPolicy::new. -/
def emptyStep : EscalationStep :=
  { order := 1, wait_seconds := 600, targets := [], channels := [] }

/-- C10: EscalationPolicy::new validates only non-emptiness of the step
list — it accepts a list whose single step has neither targets nor
channels — while add_step rejects exactly the steps with empty targets
(StepRequiresTarget, checked first) or empty channels
(StepRequiresChannel) and appends any other step. -/
theorem policy_new_skips_step_validation :
    (EscalationPolicy.new ⟨"pol-0"⟩ "p" [emptyStep] 0 =
      Except.ok { id := ⟨"pol-0"⟩, name := "p", steps := [emptyStep], repeat_count := 0 }) ∧
    (∀ (p : EscalationPolicy) (s : EscalationStep), s.targets = [] →
      p.add_step s = Except.error DomainError.StepRequiresTarget) ∧
    (∀ (p : EscalationPolicy) (s : EscalationStep), s.targets ≠ [] → s.channels = [] →
      p.add_step s = Except.error DomainError.StepRequiresChannel) ∧
    (∀ (p : EscalationPolicy) (s : EscalationStep), s.targets ≠ [] → s.channels ≠ [] →
      p.add_step s = Except.ok ({ p with steps := p.steps ++ [s] }, [])) := by
  refine ⟨by decide, ?_, ?_, ?_⟩
  · intro p s h
    simp [EscalationPolicy.add_step, h]
  · intro p s h1 h2
    simp [EscalationPolicy.add_step, List.isEmpty_iff, h1, h2]
  · intro p s h1 h2
    simp [EscalationPolicy.add_step, List.isEmpty_iff, h1, h2]

/-- C10 witness: the constructed policy rejects emptyStep through
add_step with StepRequiresTarget, and rejects a targeted but
channel-less step with StepRequiresChannel. -/
theorem policy_new_skips_step_validation_witness :
    emptyStep.targets = [] ∧
    EscalationPolicy.add_step
      { id := ⟨"pol-0"⟩, name := "p", steps := [emptyStep], repeat_count := 0 } emptyStep =
      Except.error DomainError.StepRequiresTarget ∧
    (⟨0, 0, [EscalationTarget.User ⟨"u"⟩], []⟩ : EscalationStep).targets ≠ [] ∧
    (⟨0, 0, [EscalationTarget.User ⟨"u"⟩], []⟩ : EscalationStep).channels = [] ∧
    EscalationPolicy.add_step
      { id := ⟨"pol-0"⟩, name := "p", steps := [emptyStep], repeat_count := 0 }
      ⟨0, 0, [EscalationTarget.User ⟨"u"⟩], []⟩ =
      Except.error DomainError.StepRequiresChannel :=
  ⟨by decide,
   policy_new_skips_step_validation.2.1 _ _ (by decide),
   by decide, by decide,
   policy_new_skips_step_validation.2.2.1 _ _ (by decide) (by decide)⟩

/-- C6: acknowledge fails with AlertAlreadyResolved exactly on a
Resolved alert; on a Firing alert it moves to Acknowledged, stamps the
acknowledgement fields, and returns exactly one AlertAcknowledged
event; on an Acknowledged alert it succeeds with no events and no
change; and the error path leaves the aggregate untouched. -/
theorem acknowledge_contract (a : Alert) (u : UserId) (now : Int) :
    (a.acknowledge u now = Except.error DomainError.AlertAlreadyResolved ↔
      a.status = Status.Resolved) ∧
    (a.status = Status.Firing →
      a.acknowledge u now = Except.ok
        ({ a with status := Status.Acknowledged, acknowledged_at := some now,
                  acknowledged_by := some u },
         [DomainEvent.AlertAcknowledged
           { alert_id := a.id, user_id := u, occurred_at := now }])) ∧
    (a.status = Status.Acknowledged → a.acknowledge u now = Except.ok (a, [])) ∧
    (a.status = Status.Resolved → applyOp a (AlertOp.acknowledge u now) = a) := by
  refine ⟨?_, ?_, ?_, ?_⟩
  · constructor
    · intro h
      cases hs : a.status <;> simp [Alert.acknowledge, hs] at h ⊢
    · intro hs
      simp [Alert.acknowledge, hs]
  · intro hs
    simp [Alert.acknowledge, hs]
  · intro hs
    simp [Alert.acknowledge, hs]
  · intro hs
    exact applyOp_ack_resolved a u now hs

/-- C6 witness: the contract evaluated on a concrete Resolved alert and
a concrete Firing alert. -/
theorem acknowledge_contract_witness :
    (alertR.acknowledge ⟨"u"⟩ 7 = Except.error DomainError.AlertAlreadyResolved ↔
      alertR.status = Status.Resolved) ∧
    alertR.status = Status.Resolved ∧
    applyOp alertR (AlertOp.acknowledge ⟨"u"⟩ 7) = alertR ∧
    alertF.status = Status.Firing ∧
    alertF.acknowledge ⟨"u"⟩ 7 = Except.ok
      ({ alertF with status := Status.Acknowledged, acknowledged_at := some 7,
                     acknowledged_by := some ⟨"u"⟩ },
       [DomainEvent.AlertAcknowledged
         { alert_id := alertF.id, user_id := ⟨"u"⟩, occurred_at := 7 }]) :=
  ⟨(acknowledge_contract alertR ⟨"u"⟩ 7).1, by decide,
   (acknowledge_contract alertR ⟨"u"⟩ 7).2.2.2 (by decide), by decide,
   (acknowledge_contract alertF ⟨"u"⟩ 7).2.1 (by decide)⟩

lemma runOps_total_fires (ops : List NoiseOp) :
    ∀ s : NoiseScore, (s.runOps ops).total_fires = s.total_fires + numFire ops := by
  induction ops with
  | nil => intro s; simp [NoiseScore.runOps, numFire]
  | cons op ops ih =>
      intro s
      rw [show NoiseScore.runOps s (op :: ops) = NoiseScore.runOps (s.applyNoiseOp op) ops
        from rfl, ih]
      cases op <;>
        simp [NoiseScore.applyNoiseOp, numFire, NoiseScore.record_fire,
          NoiseScore.record_dismiss, NoiseScore.record_action] <;>
        omega

lemma runOps_dismissed (ops : List NoiseOp) :
    ∀ s : NoiseScore, (s.runOps ops).dismissed_count = s.dismissed_count + numDismiss ops := by
  induction ops with
  | nil => intro s; simp [NoiseScore.runOps, numDismiss]
  | cons op ops ih =>
      intro s
      rw [show NoiseScore.runOps s (op :: ops) = NoiseScore.runOps (s.applyNoiseOp op) ops
        from rfl, ih]
      cases op <;>
        simp [NoiseScore.applyNoiseOp, numDismiss, NoiseScore.record_fire,
          NoiseScore.record_dismiss, NoiseScore.record_action] <;>
        omega

lemma runOps_acted_on (ops : List NoiseOp) :
    ∀ s : NoiseScore, (s.runOps ops).acted_on_count = s.acted_on_count + numAction ops := by
  induction ops with
  | nil => intro s; simp [NoiseScore.runOps, numAction]
  | cons op ops ih =>
      intro s
      rw [show NoiseScore.runOps s (op :: ops) = NoiseScore.runOps (s.applyNoiseOp op) ops
        from rfl, ih]
      cases op <;>
        simp [NoiseScore.applyNoiseOp, numAction, NoiseScore.record_fire,
          NoiseScore.record_dismiss, NoiseScore.record_action] <;>
        omega

/-- C3 counterexample: a single record_dismiss call straight after
new("fp") is a reachable state with dismissed_count + acted_on_count =
1 but total_fires = 0 — the counter mutators carry no guard, so the
invariant fails for unconstrained call sequences. -/
theorem noise_invariant_violated_by_dismiss_first :
    ¬ (((NoiseScore.new "fp").runOps [NoiseOp.dismiss]).dismissed_count +
        ((NoiseScore.new "fp").runOps [NoiseOp.dismiss]).acted_on_count ≤
        ((NoiseScore.new "fp").runOps [NoiseOp.dismiss]).total_fires) := by
  decide

/-- C3 amended: for every sequence of record_fire / record_dismiss /
record_action calls in which the dismiss and action calls together do
not outnumber the fire calls (as NoiseService guarantees, since each
recorded response follows a recorded fire), the state reached from
new(fingerprint) satisfies dismissed_count + acted_on_count ≤
total_fires. -/
theorem noise_invariant_of_bounded_responses (fp : String) (ops : List NoiseOp)
    (h : numDismiss ops + numAction ops ≤ numFire ops) :
    ((NoiseScore.new fp).runOps ops).dismissed_count +
      ((NoiseScore.new fp).runOps ops).acted_on_count ≤
      ((NoiseScore.new fp).runOps ops).total_fires := by
  rw [runOps_total_fires, runOps_dismissed, runOps_acted_on]
  simp [NoiseScore.new]
  omega

/-- C3 witness: the fire-then-dismiss sequence satisfies the response
bound and the reached state satisfies the invariant. -/
theorem noise_invariant_of_bounded_responses_witness :
    numDismiss [NoiseOp.fire, NoiseOp.dismiss] + numAction [NoiseOp.fire, NoiseOp.dismiss] ≤
      numFire [NoiseOp.fire, NoiseOp.dismiss] ∧
    ((NoiseScore.new "fp").runOps [NoiseOp.fire, NoiseOp.dismiss]).dismissed_count +
      ((NoiseScore.new "fp").runOps [NoiseOp.fire, NoiseOp.dismiss]).acted_on_count ≤
      ((NoiseScore.new "fp").runOps [NoiseOp.fire, NoiseOp.dismiss]).total_fires :=
  ⟨by decide, noise_invariant_of_bounded_responses "fp" [NoiseOp.fire, NoiseOp.dismiss] (by decide)⟩

/-- The integer running-mean recurrence that update_avg_ack_time
implements: entering with i prior responses and running value avg, each
further duration d contributes avg := (avg * i + d) tdiv (i + 1). -/
def runningMeanAux (i : Nat) (avg : Int) : List Int → Int
  | [] => avg
  | d :: ds => runningMeanAux (i + 1) (Int.tdiv (avg * (i : Int) + d) ((i : Int) + 1)) ds

lemma runningMeanAux_congr {i j : Nat} {v w : Int} (hi : i = j) (hv : v = w)
    (l : List Int) : runningMeanAux i v l = runningMeanAux j w l := by
  rw [hi, hv]

lemma runPairs_counts (ps : List (Bool × Int)) :
    ∀ s : NoiseScore, (s.runPairs ps).dismissed_count + (s.runPairs ps).acted_on_count =
      s.dismissed_count + s.acted_on_count + ps.length := by
  induction ps with
  | nil => intro s; simp [NoiseScore.runPairs]
  | cons p ps ih =>
      intro s
      obtain ⟨b, d⟩ := p
      cases b
      · rw [show NoiseScore.runPairs s ((false, d) :: ps) =
            NoiseScore.runPairs ((s.record_action).update_avg_ack_time d) ps from rfl, ih]
        simp [NoiseScore.record_action, NoiseScore.update_avg_ack_time]
        omega
      · rw [show NoiseScore.runPairs s ((true, d) :: ps) =
            NoiseScore.runPairs ((s.record_dismiss).update_avg_ack_time d) ps from rfl, ih]
        simp [NoiseScore.record_dismiss, NoiseScore.update_avg_ack_time]
        omega

lemma runPairs_avg (ps : List (Bool × Int)) :
    ∀ s : NoiseScore, (s.runPairs ps).avg_time_to_ack_secs =
      runningMeanAux (s.dismissed_count + s.acted_on_count) s.avg_time_to_ack_secs
        (ps.map Prod.snd) := by
  induction ps with
  | nil => intro s; simp [NoiseScore.runPairs, runningMeanAux]
  | cons p ps ih =>
      intro s
      obtain ⟨b, d⟩ := p
      cases b
      · rw [show NoiseScore.runPairs s ((false, d) :: ps) =
            NoiseScore.runPairs ((s.record_action).update_avg_ack_time d) ps from rfl, ih]
        simp [NoiseScore.record_action, NoiseScore.update_avg_ack_time, runningMeanAux]
        exact runningMeanAux_congr (by omega) (by congr 1 <;> push_cast <;> ring) _
      · rw [show NoiseScore.runPairs s ((true, d) :: ps) =
            NoiseScore.runPairs ((s.record_dismiss).update_avg_ack_time d) ps from rfl, ih]
        simp [NoiseScore.record_dismiss, NoiseScore.update_avg_ack_time, runningMeanAux]
        exact runningMeanAux_congr (by omega) (by congr 1 <;> push_cast <;> ring) _

/-- C7 counterexample: three increment-then-update pairs with durations
3, 0, 3 seconds leave avg_time_to_ack_secs at 1, while the exact mean
of the durations is 2 (2 · 3 = 3 + 0 + 3): the per-step i64 truncation
makes the running value drift below the true mean. -/
theorem avg_ack_time_differs_from_exact_mean :
    ((NoiseScore.new "fp").runPairs [(true, 3), (true, 0), (true, 3)]).avg_time_to_ack_secs
      = 1 ∧
    (2 : Int) * 3 = 3 + 0 + 3 ∧
    ((NoiseScore.new "fp").runPairs [(true, 3), (true, 0), (true, 3)]).avg_time_to_ack_secs
      ≠ 2 := by
  refine ⟨by decide, by decide, by decide⟩

/-- C7 amended: update_avg_ack_time after a counter increment follows
the recurrence avg' = (avg · (n − 1) + d) tdiv n with n the response
count after the increment (so the first update sets avg to d tdiv 1 =
d directly), and after k increment-then-update pairs from a fresh score
the value equals the fold of that truncating integer recurrence over
d_1..d_k — which may differ from the exact mean. -/
theorem update_avg_ack_time_truncating_recurrence :
    (∀ (s : NoiseScore) (d : Int),
      ((s.record_dismiss).update_avg_ack_time d).avg_time_to_ack_secs =
        Int.tdiv (s.avg_time_to_ack_secs * ((s.dismissed_count + s.acted_on_count : Nat) : Int) + d)
          (((s.dismissed_count + s.acted_on_count : Nat) : Int) + 1)) ∧
    (∀ (s : NoiseScore) (d : Int),
      ((s.record_action).update_avg_ack_time d).avg_time_to_ack_secs =
        Int.tdiv (s.avg_time_to_ack_secs * ((s.dismissed_count + s.acted_on_count : Nat) : Int) + d)
          (((s.dismissed_count + s.acted_on_count : Nat) : Int) + 1)) ∧
    (∀ (fp : String) (ps : List (Bool × Int)),
      ((NoiseScore.new fp).runPairs ps).avg_time_to_ack_secs =
        runningMeanAux 0 0 (ps.map Prod.snd) ∧
      ((NoiseScore.new fp).runPairs ps).dismissed_count +
        ((NoiseScore.new fp).runPairs ps).acted_on_count = ps.length) := by
  refine ⟨?_, ?_, ?_⟩
  · intro s d
    simp [NoiseScore.record_dismiss, NoiseScore.update_avg_ack_time]
    congr 1 <;> push_cast <;> ring
  · intro s d
    simp [NoiseScore.record_action, NoiseScore.update_avg_ack_time]
    congr 1 <;> push_cast <;> ring
  · intro fp ps
    constructor
    · rw [runPairs_avg]
      simp [NoiseScore.new]
    · rw [runPairs_counts]
      simp [NoiseScore.new]

/-- The schedule produced by Schedule::new for Rotation::Custom(0) with
one participant. -/
def schedCustom0 : Schedule :=
  { id := ⟨"s0"⟩, name := "solo", timezone_epoch := 1578268800,
    rotation := Rotation.Custom 0, participants := [⟨"u0"⟩],
    handoff := ⟨Weekday.Mon, 9, 0⟩, overrides := [] }

/-- C4: Schedule::new performs no rotation validation, so it accepts
Rotation::Custom(0); for the resulting schedule every who_is_on_call
query reaches the rotation pass and hits the guarded division by the
zero rotation length (a panic in the Rust code, none here); with a
non-zero rotation length and a non-empty participant list,
who_is_on_call always produces a user. -/
theorem custom_zero_rotation_breaks_totality :
    (Schedule.new ⟨"s0"⟩ "solo" 1578268800 (Rotation.Custom 0) [⟨"u0"⟩]
      ⟨Weekday.Mon, 9, 0⟩ = Except.ok schedCustom0) ∧
    (∀ t : Int, schedCustom0.who_is_on_call t = none) ∧
    (∀ (s : Schedule) (t : Int), s.rotation.duration_secs ≠ 0 → s.participants ≠ [] →
      (s.who_is_on_call t).isSome = true) := by
  refine ⟨by decide, fun t => rfl, ?_⟩
  intro s t hd hp
  unfold Schedule.who_is_on_call
  cases hfind : s.overrides.reverse.find? (fun o => o.is_active_at t) with
  | some o => simp
  | none =>
      simp only
      unfold Schedule.rotation_on_call
      simp only [hd, if_false]
      have hn : 0 < s.participants.length := List.length_pos.2 hp
      have hnz : (s.participants.length : Int) ≠ 0 := by
        exact_mod_cast Nat.pos_iff_ne_zero.1 hn
      have hlt : Int.emod (Int.tdiv (t - s.timezone_epoch) s.rotation.duration_secs)
          (s.participants.length : Int) < (s.participants.length : Int) :=
        Int.emod_lt_of_pos _ (by exact_mod_cast hn)
      have htn : (Int.emod (Int.tdiv (t - s.timezone_epoch) s.rotation.duration_secs)
          (s.participants.length : Int)).toNat < s.participants.length := by
        rw [Int.toNat_lt' (Nat.pos_iff_ne_zero.1 hn)]
        exact hlt
      simp [List.getElem?_eq_getElem htn]

/-- C4 witness: the Custom(0) schedule is the value Schedule::new
returns, its on-call query at the epoch is none, and a Daily schedule
with one participant always resolves. -/
theorem custom_zero_rotation_breaks_totality_witness :
    schedCustom0.who_is_on_call 1578268800 = none ∧
    ({ schedCustom0 with rotation := Rotation.Daily } : Schedule).rotation.duration_secs ≠ 0 ∧
    ({ schedCustom0 with rotation := Rotation.Daily } : Schedule).participants ≠ [] ∧
    (({ schedCustom0 with rotation := Rotation.Daily } : Schedule).who_is_on_call
      1578268800).isSome = true :=
  ⟨custom_zero_rotation_breaks_totality.2.1 1578268800, by decide, by decide,
   custom_zero_rotation_breaks_totality.2.2
     { schedCustom0 with rotation := Rotation.Daily } 1578268800 (by decide) (by decide)⟩

/-- The route used to exercise the receive path: it matches every alert
carrying the service=api label. -/
def routerC : AlertRouter :=
  ⟨[⟨[("service", "api")], ⟨"pol-1"⟩⟩]⟩

/-- A firing RawAlert whose labels the route matches. -/
def rawC : RawAlert :=
  { external_id := "ext-1", source := "am", severity := "critical",
    labels := [("service", "api")], summary := "High CPU", status := "firing" }

/-- The empty world: no stored alerts, no queue rows, no events. -/
def st0 : ServiceState :=
  ⟨[], [], [], []⟩

/-- The outcome of receiving rawC in the empty world at time 100. -/
def recvResult : Except AppError (AlertId × ServiceState) :=
  receive routerC st0 rawC 100 ⟨"al-1"⟩

/-- The world after receiving rawC (the error case is unreachable). -/
def recvState : ServiceState :=
  match recvResult with
  | Except.ok (_, st) => st
  | Except.error _ => st0

/-- C1: receiving a fresh non-resolved RawAlert persists the new alert
and publishes AlertReceived, and the router does match a policy for its
labels — but the escalation queue stays empty: AlertService::receive
discards the routing match instead of enqueuing the first escalation
step at now + first_step.wait_seconds (the enqueue site in the source
is an empty stub), so the claimed and specified enqueue never happens. -/
theorem receive_drops_matched_escalation :
    recvResult.isOk = true ∧
    recvState.alerts.length = 1 ∧
    recvState.published =
      [DomainEvent.AlertReceived
        { alert_id := ⟨"al-1"⟩, source := "am", severity := Severity.Critical,
          occurred_at := 100 }] ∧
    routerC.match_alert rawC.labels = some ⟨"pol-1"⟩ ∧
    recvState.enqueued = [] := by
  refine ⟨by decide, by decide, by decide, by decide, by decide⟩

lemma statusTrace_head (a : Alert) (ops : List AlertOp) :
    ∃ t, statusTrace a ops = a.status :: t := by
  cases ops <;> exact ⟨_, rfl⟩

lemma collapse_trace (ops : List AlertOp) :
    ∀ a : Alert,
      (a.status = Status.Firing →
        (collapse (statusTrace a ops) = [Status.Firing] ∨
         collapse (statusTrace a ops) = [Status.Firing, Status.Acknowledged] ∨
         collapse (statusTrace a ops) = [Status.Firing, Status.Acknowledged, Status.Resolved] ∨
         collapse (statusTrace a ops) = [Status.Firing, Status.Resolved])) ∧
      (a.status = Status.Acknowledged →
        (collapse (statusTrace a ops) = [Status.Acknowledged] ∨
         collapse (statusTrace a ops) = [Status.Acknowledged, Status.Resolved])) ∧
      (a.status = Status.Resolved →
        collapse (statusTrace a ops) = [Status.Resolved]) := by
  induction ops with
  | nil =>
      intro a
      refine ⟨?_, ?_, ?_⟩ <;> intro h <;> simp [statusTrace, collapse, h]
  | cons op ops ih =>
      intro a
      refine ⟨?_, ?_, ?_⟩ <;> intro h
      · cases op with
        | acknowledge u n =>
            have ha := applyOp_ack_firing a u n h
            have IH := (ih (applyOp a (AlertOp.acknowledge u n))).2.1 (by rw [ha])
            show (collapse (a.status :: statusTrace (applyOp a (AlertOp.acknowledge u n)) ops) = _ ∨ _)
            rcases IH with hc | hc <;> simp [collapse, hc, h]
        | resolve rb n =>
            have ha := applyOp_resolve_firing a rb n h
            have IH := (ih (applyOp a (AlertOp.resolve rb n))).2.2 (by rw [ha])
            show (collapse (a.status :: statusTrace (applyOp a (AlertOp.resolve rb n)) ops) = _ ∨ _)
            simp [collapse, IH, h]
      · cases op with
        | acknowledge u n =>
            have ha := applyOp_ack_acknowledged a u n h
            have IH := (ih (applyOp a (AlertOp.acknowledge u n))).2.1 (by rw [ha, h])
            show (collapse (a.status :: statusTrace (applyOp a (AlertOp.acknowledge u n)) ops) = _ ∨ _)
            rcases IH with hc | hc <;> simp [collapse, hc, h]
        | resolve rb n =>
            have ha := applyOp_resolve_acknowledged a rb n h
            have IH := (ih (applyOp a (AlertOp.resolve rb n))).2.2 (by rw [ha])
            show (collapse (a.status :: statusTrace (applyOp a (AlertOp.resolve rb n)) ops) = _ ∨ _)
            simp [collapse, IH, h]
      · have ha := applyOp_resolved_fixed a op h
        have IH := (ih (applyOp a op)).2.2 (by rw [ha, h])
        show collapse (a.status :: statusTrace (applyOp a op) ops) = _
        simp [collapse, IH, h]

/-- Well-formedness the alert lifecycle maintains: a Firing alert has
no acknowledgement stamp, an Acknowledged alert has both. -/
def WFAck (a : Alert) : Prop :=
  (a.status = Status.Firing → a.acknowledged_at = none ∧ a.acknowledged_by = none) ∧
  (a.status = Status.Acknowledged → a.acknowledged_at ≠ none ∧ a.acknowledged_by ≠ none)

lemma acked_fields (ops : List AlertOp) :
    ∀ a : Alert, WFAck a →
      ((applyOps a ops).acknowledged_at ≠ none ↔
        (a.acknowledged_at ≠ none ∨ Status.Acknowledged ∈ statusTrace a ops)) ∧
      ((applyOps a ops).acknowledged_by ≠ none ↔
        (a.acknowledged_by ≠ none ∨ Status.Acknowledged ∈ statusTrace a ops)) := by
  induction ops with
  | nil =>
      intro a hwf
      cases hstat : a.status with
      | Firing =>
          obtain ⟨h1, h2⟩ := hwf.1 hstat
          simp [applyOps, statusTrace, hstat, h1, h2]
      | Acknowledged =>
          obtain ⟨h1, h2⟩ := hwf.2 hstat
          simp [applyOps, statusTrace, hstat, h1, h2]
      | Resolved =>
          simp [applyOps, statusTrace, hstat]
  | cons op ops ih =>
      intro a hwf
      have hrun : applyOps a (op :: ops) = applyOps (applyOp a op) ops := rfl
      have htr : statusTrace a (op :: ops) = a.status :: statusTrace (applyOp a op) ops := rfl
      obtain ⟨t, ht⟩ := statusTrace_head (applyOp a op) ops
      cases op with
      | acknowledge u n =>
          cases hstat : a.status with
          | Firing =>
              have ha := applyOp_ack_firing a u n hstat
              have hwf2 : WFAck (applyOp a (AlertOp.acknowledge u n)) := by
                rw [ha]; simp [WFAck]
              have IH := ih (applyOp a (AlertOp.acknowledge u n)) hwf2
              rw [ha] at ht
              constructor
              · rw [hrun, htr, hstat, IH.1]
                simp [ha, ht]
              · rw [hrun, htr, hstat, IH.2]
                simp [ha, ht]
          | Acknowledged =>
              have ha := applyOp_ack_acknowledged a u n hstat
              have IH := ih (applyOp a (AlertOp.acknowledge u n)) (by rw [ha]; exact hwf)
              obtain ⟨h1, h2⟩ := hwf.2 hstat
              constructor
              · rw [hrun, htr, hstat, IH.1]
                simp [ha, h1]
              · rw [hrun, htr, hstat, IH.2]
                simp [ha, h2]
          | Resolved =>
              have ha := applyOp_ack_resolved a u n hstat
              have IH := ih (applyOp a (AlertOp.acknowledge u n)) (by rw [ha]; exact hwf)
              constructor
              · rw [hrun, htr, hstat, IH.1]
                simp [ha]
              · rw [hrun, htr, hstat, IH.2]
                simp [ha]
      | resolve rb n =>
          cases hstat : a.status with
          | Firing =>
              have ha := applyOp_resolve_firing a rb n hstat
              have hwf2 : WFAck (applyOp a (AlertOp.resolve rb n)) := by
                rw [ha]; simp [WFAck]
              have IH := ih (applyOp a (AlertOp.resolve rb n)) hwf2
              obtain ⟨h1, h2⟩ := hwf.1 hstat
              constructor
              · rw [hrun, htr, hstat, IH.1]
                simp [ha, h1]
              · rw [hrun, htr, hstat, IH.2]
                simp [ha, h2]
          | Acknowledged =>
              have ha := applyOp_resolve_acknowledged a rb n hstat
              have hwf2 : WFAck (applyOp a (AlertOp.resolve rb n)) := by
                rw [ha]; simp [WFAck]
              have IH := ih (applyOp a (AlertOp.resolve rb n)) hwf2
              obtain ⟨h1, h2⟩ := hwf.2 hstat
              constructor
              · rw [hrun, htr, hstat, IH.1]
                simp [ha, h1]
              · rw [hrun, htr, hstat, IH.2]
                simp [ha, h2]
          | Resolved =>
              have ha := applyOp_resolve_resolved a rb n hstat
              have IH := ih (applyOp a (AlertOp.resolve rb n)) (by rw [ha]; exact hwf)
              constructor
              · rw [hrun, htr, hstat, IH.1]
                simp [ha]
              · rw [hrun, htr, hstat, IH.2]
                simp [ha]

/-- C5: no operation moves an alert out of Resolved; the observed
status sequence of a Firing alert, with consecutive duplicates
collapsed, is a non-empty prefix of [Firing, Acknowledged, Resolved] or
of [Firing, Resolved]; and for an alert created by Alert::new the
acknowledgement stamps are set exactly when the trace passed through
Acknowledged. -/
theorem alert_status_monotone :
    (∀ (a : Alert) (op : AlertOp), a.status = Status.Resolved → applyOp a op = a) ∧
    (∀ (a : Alert) (ops : List AlertOp), a.status = Status.Firing →
      (collapse (statusTrace a ops) = [Status.Firing] ∨
       collapse (statusTrace a ops) = [Status.Firing, Status.Acknowledged] ∨
       collapse (statusTrace a ops) = [Status.Firing, Status.Acknowledged, Status.Resolved] ∨
       collapse (statusTrace a ops) = [Status.Firing, Status.Resolved])) ∧
    (∀ (id : AlertId) (eid : String) (src : Source) (sev : Severity) (labels : Labels)
       (summary : String) (now : Int) (ops : List AlertOp),
      ((applyOps (Alert.new id eid src sev labels summary now).1 ops).acknowledged_at ≠ none ↔
        Status.Acknowledged ∈ statusTrace (Alert.new id eid src sev labels summary now).1 ops) ∧
      ((applyOps (Alert.new id eid src sev labels summary now).1 ops).acknowledged_by ≠ none ↔
        Status.Acknowledged ∈ statusTrace (Alert.new id eid src sev labels summary now).1 ops)) := by
  refine ⟨applyOp_resolved_fixed, ?_, ?_⟩
  · intro a ops h
    exact (collapse_trace ops a).1 h
  · intro id eid src sev labels summary now ops
    have hwf : WFAck (Alert.new id eid src sev labels summary now).1 := by
      simp [Alert.new, WFAck]
    have H := acked_fields ops (Alert.new id eid src sev labels summary now).1 hwf
    constructor
    · rw [H.1]
      simp [Alert.new]
    · rw [H.2]
      simp [Alert.new]

/-- C5 witness: the contract evaluated on concrete alerts — a resolve
call on a Resolved alert is the identity, a Firing alert resolved once
collapses to [Firing, Resolved], and a fresh alert acknowledged once
has its stamps set with Acknowledged in the trace. -/
theorem alert_status_monotone_witness :
    alertR.status = Status.Resolved ∧
    applyOp alertR (AlertOp.resolve "x" 9) = alertR ∧
    alertF.status = Status.Firing ∧
    (collapse (statusTrace alertF [AlertOp.resolve "x" 9]) = [Status.Firing] ∨
     collapse (statusTrace alertF [AlertOp.resolve "x" 9]) =
       [Status.Firing, Status.Acknowledged] ∨
     collapse (statusTrace alertF [AlertOp.resolve "x" 9]) =
       [Status.Firing, Status.Acknowledged, Status.Resolved] ∨
     collapse (statusTrace alertF [AlertOp.resolve "x" 9]) =
       [Status.Firing, Status.Resolved]) ∧
    ((applyOps (Alert.new ⟨"a3"⟩ "e" ⟨"s"⟩ Severity.Info [] "m" 0).1
        [AlertOp.acknowledge ⟨"u"⟩ 5]).acknowledged_at ≠ none ↔
      Status.Acknowledged ∈ statusTrace (Alert.new ⟨"a3"⟩ "e" ⟨"s"⟩ Severity.Info [] "m" 0).1
        [AlertOp.acknowledge ⟨"u"⟩ 5]) :=
  ⟨by decide,
   alert_status_monotone.1 alertR (AlertOp.resolve "x" 9) (by decide),
   by decide,
   alert_status_monotone.2.1 alertF [AlertOp.resolve "x" 9] (by decide),
   (alert_status_monotone.2.2 ⟨"a3"⟩ "e" ⟨"s"⟩ Severity.Info [] "m" 0
     [AlertOp.acknowledge ⟨"u"⟩ 5]).1⟩

/-- A two-participant Daily schedule; its timezone_epoch is the Unix
second of Monday 2020-01-06 00:00:00 UTC. -/
def sched2 : Schedule :=
  { id := ⟨"s2"⟩, name := "pair", timezone_epoch := 1578268800,
    rotation := Rotation.Daily, participants := [⟨"u0"⟩, ⟨"u1"⟩],
    handoff := ⟨Weekday.Mon, 9, 0⟩, overrides := [] }

/-- C2 counterexample: one second before the rotation epoch the elapsed
time is -1, and Rust i64 division truncates toward zero, so the period
index differs from the one two rotation lengths (n·d = 2·86400) later:
who_is_on_call(t + n·d) = u1 but who_is_on_call(t) = u0, refuting the
claimed periodicity at a time with no overrides active. -/
theorem rotation_not_periodic_before_epoch :
    sched2.overrides = [] ∧
    sched2.participants.length = 2 ∧
    sched2.rotation.duration_secs = 86400 ∧
    sched2.who_is_on_call 1578268799 = some ⟨"u0"⟩ ∧
    sched2.who_is_on_call (1578268799 + 2 * 86400) = some ⟨"u1"⟩ ∧
    sched2.who_is_on_call (1578268799 + 2 * 86400) ≠ sched2.who_is_on_call 1578268799 := by
  refine ⟨rfl, rfl, rfl, by decide, by decide, by decide⟩

lemma tdiv_emod_shift (m k n : Nat) (hk : 0 < k) :
    Int.emod (Int.tdiv ((m : Int) + (n : Int) * (k : Int)) (k : Int)) (n : Int) =
      Int.emod (Int.tdiv (m : Int) (k : Int)) (n : Int) := by
  have h1 : (m : Int) + (n : Int) * (k : Int) = ((m + n * k : Nat) : Int) := by
    push_cast
    ring
  rw [h1]
  have h2 : Int.tdiv ((m + n * k : Nat) : Int) (k : Int) = (((m + n * k) / k : Nat) : Int) := rfl
  have h3 : Int.tdiv (m : Int) (k : Int) = ((m / k : Nat) : Int) := rfl
  rw [h2, h3, Nat.add_mul_div_right m n hk]
  have h4 : Int.emod ((m / k + n : Nat) : Int) (n : Int) = (((m / k + n) % n : Nat) : Int) := rfl
  have h5 : Int.emod ((m / k : Nat) : Int) (n : Int) = ((m / k % n : Nat) : Int) := rfl
  rw [h4, h5, Nat.add_mod_right]

/-- C2 amended: for a schedule with positive rotation length d and n
participants, for every t at or after the rotation epoch with no
override active at t nor at t + n·d, who_is_on_call(t + n·d) =
who_is_on_call(t). Before the epoch the truncating i64 division breaks
the periodicity. -/
theorem who_is_on_call_periodic_after_epoch (s : Schedule) (t : Int)
    (hd : 0 < s.rotation.duration_secs)
    (he : s.timezone_epoch ≤ t)
    (h1 : ∀ o ∈ s.overrides, o.is_active_at t = false)
    (h2 : ∀ o ∈ s.overrides,
      o.is_active_at (t + (s.participants.length : Int) * s.rotation.duration_secs) = false) :
    s.who_is_on_call (t + (s.participants.length : Int) * s.rotation.duration_secs) =
      s.who_is_on_call t := by
  have hf1 : s.overrides.reverse.find? (fun o => o.is_active_at t) = none := by
    rw [List.find?_eq_none]
    intro o ho
    simp [h1 o (List.mem_reverse.1 ho)]
  have hf2 : s.overrides.reverse.find? (fun o => o.is_active_at
      (t + (s.participants.length : Int) * s.rotation.duration_secs)) = none := by
    rw [List.find?_eq_none]
    intro o ho
    simp [h2 o (List.mem_reverse.1 ho)]
  have hd0 : ¬ (s.rotation.duration_secs = 0) := by omega
  have hidx : Int.emod (Int.tdiv
        (t + (s.participants.length : Int) * s.rotation.duration_secs - s.timezone_epoch)
        s.rotation.duration_secs) (s.participants.length : Int) =
      Int.emod (Int.tdiv (t - s.timezone_epoch) s.rotation.duration_secs)
        (s.participants.length : Int) := by
    have harr : t + (s.participants.length : Int) * s.rotation.duration_secs - s.timezone_epoch =
        (t - s.timezone_epoch) + (s.participants.length : Int) * s.rotation.duration_secs := by
      ring
    rw [harr]
    obtain ⟨m, hm⟩ := Int.eq_ofNat_of_zero_le (by omega : (0 : Int) ≤ t - s.timezone_epoch)
    obtain ⟨k, hk⟩ := Int.eq_ofNat_of_zero_le (le_of_lt hd)
    have hkpos : 0 < k := by
      have : (0 : Int) < (k : Int) := by rw [← hk]; exact hd
      exact_mod_cast this
    rw [hm, hk]
    exact tdiv_emod_shift m k s.participants.length hkpos
  unfold Schedule.who_is_on_call
  rw [hf1, hf2]
  unfold Schedule.rotation_on_call
  simp only [hd0, if_false, hidx]

/-- C2 witness: the periodicity instantiated on sched2 exactly at the
epoch, where both override conditions hold vacuously. -/
theorem who_is_on_call_periodic_after_epoch_witness :
    (0 : Int) < sched2.rotation.duration_secs ∧
    sched2.timezone_epoch ≤ 1578268800 ∧
    sched2.who_is_on_call
        (1578268800 + (sched2.participants.length : Int) * sched2.rotation.duration_secs) =
      sched2.who_is_on_call 1578268800 :=
  ⟨by decide, by decide,
   who_is_on_call_periodic_after_epoch sched2 1578268800 (by decide) (by decide)
     (by intro o ho; simp [sched2] at ho)
     (by intro o ho; simp [sched2] at ho)⟩

lemma sipMain_lt (s : SipState) (len : Nat) (bs : List Nat) :
    sipMain s len bs < 18446744073709551616 := by
  rcases bs with _ | ⟨b0, _ | ⟨b1, _ | ⟨b2, _ | ⟨b3, _ | ⟨b4, _ | ⟨b5, _ | ⟨b6, _ | ⟨b7, rest⟩⟩⟩⟩⟩⟩⟩⟩
  · exact Nat.mod_lt _ (by norm_num)
  · exact Nat.mod_lt _ (by norm_num)
  · exact Nat.mod_lt _ (by norm_num)
  · exact Nat.mod_lt _ (by norm_num)
  · exact Nat.mod_lt _ (by norm_num)
  · exact Nat.mod_lt _ (by norm_num)
  · exact Nat.mod_lt _ (by norm_num)
  · exact Nat.mod_lt _ (by norm_num)
  · exact sipMain_lt (sipWord s (le64 [b0, b1, b2, b3, b4, b5, b6, b7])) len rest

lemma labelHash_lt (L : Labels) : labelHash L < 18446744073709551616 :=
  sipMain_lt sipInit (labelStream L).length (labelStream L)

/-- The family of pairwise distinct singleton label maps used for the
pigeonhole argument: key of i letters a, empty value. -/
def collLabels (i : Nat) : Labels :=
  [(String.mk (List.replicate i 'a'), "")]

lemma collLabels_injective : Function.Injective collLabels := by
  intro i j h
  have h1 : (String.mk (List.replicate i 'a'), ("" : String)) =
      (String.mk (List.replicate j 'a'), ("" : String)) := by
    simpa [collLabels] using h
  have h2 : List.replicate i 'a' = List.replicate j 'a' :=
    congrArg String.data (congrArg Prod.fst h1)
  have h3 := congrArg List.length h2
  simpa using h3

/-- C8 counterexample: the claimed equivalence fails in the only-if
direction — from_labels maps the infinitely many distinct label maps
into the 2^64 possible u64 digests, so two distinct maps share a
fingerprint; determinism (the if direction) still holds. -/
theorem fingerprint_not_injective :
    ¬ (∀ L1 L2 : Labels,
        Fingerprint.from_labels L1 = Fingerprint.from_labels L2 ↔ L1 = L2) := by
  intro hclaim
  obtain ⟨i, j, hne, heq⟩ := Finite.exists_ne_map_eq_of_infinite
    (fun i : Nat => (⟨labelHash (collLabels i), labelHash_lt _⟩ : Fin 18446744073709551616))
  have hhash : labelHash (collLabels i) = labelHash (collLabels j) := congrArg Fin.val heq
  have hfp : Fingerprint.from_labels (collLabels i) = Fingerprint.from_labels (collLabels j) := by
    simp [Fingerprint.from_labels, hhash]
  exact hne (collLabels_injective ((hclaim _ _).1 hfp))

/-- The sixteen characters format!("{:016x}", _) can emit. -/
def hexChars : List Char :=
  "0123456789abcdef".data

/-- C8 amended: Fingerprint::from_labels is a deterministic function of
the label map — equal maps give equal fingerprints — and every
fingerprint is a 16-character lowercase-hex string; the converse
implication (equal fingerprints give equal maps) is refuted by the
pigeonhole collision, the digest being only 64 bits wide. -/
theorem fingerprint_deterministic_hex :
    (∀ L1 L2 : Labels, L1 = L2 →
      Fingerprint.from_labels L1 = Fingerprint.from_labels L2) ∧
    (∀ L : Labels, (Fingerprint.from_labels L).val.length = 16 ∧
      ∀ c ∈ (Fingerprint.from_labels L).val.data, c ∈ hexChars) := by
  constructor
  · intro L1 L2 h
    rw [h]
  · intro L
    constructor
    · simp [Fingerprint.from_labels, hex16, String.length]
    · intro c hc
      simp [Fingerprint.from_labels, hex16] at hc
      obtain ⟨i, hi, hdc⟩ := hc
      have hlemma : ∀ m, m < 16 → Nat.digitChar m ∈ hexChars := by decide
      rw [← hdc]
      exact hlemma _ (Nat.mod_lt _ (by norm_num))

/-- C8 witness: determinism and the hex shape instantiated on the
singleton map service=api. -/
theorem fingerprint_deterministic_hex_witness :
    Fingerprint.from_labels [("service", "api")] = Fingerprint.from_labels [("service", "api")] ∧
    (Fingerprint.from_labels [("service", "api")]).val.length = 16 :=
  ⟨fingerprint_deterministic_hex.1 [("service", "api")] [("service", "api")] rfl,
   (fingerprint_deterministic_hex.2 [("service", "api")]).1⟩

end Rouse
